import Mathlib

/-!
Verification of the tool-augmented dialogue engine of the bella repository
(src/chatter.py, src/bella_tui.py), as a shallow embedding.

The Python library calls (json.loads, re.findall over fenced blocks,
os.chdir, subprocess, the ollama client) are modelled as oracles or
abstract parameters; everything the repository itself computes — the
tool-call extraction and normalization, the executor, the round
controller ask_ollama, the glob tool control flow, the TUI clear
command and the main loop dispatch — is translated statement by
statement from the source.
-/

namespace Bella

/-- A JSON value as produced by json.loads (numbers restricted to
integers; no claim depends on float payloads). -/
inductive Json where
  | null
  | bool (b : Bool)
  | num (n : Int)
  | str (s : String)
  | arr (xs : List Json)
  | obj (fields : List (String × Json))

/-- Python truthiness of a json.loads value. -/
def jsonTruthy : Json → Bool
  | .null => false
  | .bool b => b
  | .num n => n != 0
  | .str s => s != ""
  | .arr xs => !xs.isEmpty
  | .obj fs => !fs.isEmpty

/-- Equality test of a JSON value against a Python string, as used by
the in-operator on lists. -/
def jstrEq (k : String) : Json → Bool
  | .str t => k == t
  | _ => false

/-- Python str() rendering, used only inside produced message strings. -/
def pyStr : Json → String
  | .null => "None"
  | .bool b => if b then "True" else "False"
  | .num n => toString n
  | .str s => s
  | .arr _ => "[...]"
  | .obj _ => "{...}"

/-- dict.get on the field list of a JSON object (first binding wins;
json.loads never yields duplicate keys). -/
def jlookup (fs : List (String × Json)) (k : String) : Option Json :=
  (fs.find? (fun p => p.1 == k)).map (fun p => p.2)

/-- Helper for substring containment: does the needle occur at some
position of the haystack character list. -/
def isSubstrAux (needle : List Char) : List Char → Bool
  | [] => List.isPrefixOf needle []
  | c :: rest => List.isPrefixOf needle (c :: rest) || isSubstrAux needle rest

/-- Python substring containment, for the in-operator on strings. -/
def isSubstr (needle hay : String) : Bool :=
  isSubstrAux needle.toList hay.toList

/-- The Python expression k in data on a json.loads value: key
membership for dicts, element equality for lists, substring test for
strings, TypeError otherwise.  An error result models an uncaught
Python exception. -/
def memb (k : String) (data : Json) : Except String Bool :=
  match data with
  | .obj fs => .ok (fs.any (fun p => p.1 == k))
  | .arr xs => .ok (xs.any (jstrEq k))
  | .str s => .ok (isSubstr k s)
  | _ => .error "TypeError: argument of type is not iterable"

/-- The Python expression data[k]: dict lookup for objects, TypeError
for every other json.loads value. -/
def subscr (data : Json) (k : String) : Except String Json :=
  match data with
  | .obj fs =>
    match jlookup fs k with
    | some v => .ok v
    | none => .error "KeyError"
  | _ => .error "TypeError: subscript on non-dict"

/-- One iteration body of the loop in _parse_tool_call_from_text
(src/chatter.py lines 100-135): dispatch one successfully decoded JSON
value through the four accepted shapes, in source order with Python
short-circuit evaluation.  Branch (a) appends the raw value itself. -/
def normalizeData (data : Json) : Except String (List Json) :=
  match memb "function" data with
  | .error e => .error e
  | .ok true => .ok [data]
  | .ok false =>
    match memb "name" data with
    | .error e => .error e
    | .ok hasName =>
      if hasName then
        match memb "parameters" data with
        | .error e => .error e
        | .ok true =>
          match subscr data "name" with
          | .error e => .error e
          | .ok n =>
            match subscr data "parameters" with
            | .error e => .error e
            | .ok ps =>
              .ok [Json.obj [("function", Json.obj [("name", n), ("arguments", ps)])]]
        | .ok false =>
          match memb "tool_call" data with
          | .error e => .error e
          | .ok true =>
            match subscr data "tool_call" with
            | .error e => .error e
            | .ok (Json.obj entries) =>
              .ok (entries.map (fun pr =>
                Json.obj [("function", Json.obj [("name", Json.str pr.1), ("arguments", pr.2)])]))
            | .ok _ => .error "AttributeError: items"
          | .ok false =>
            match subscr data "name" with
            | .error e => .error e
            | .ok n =>
              match data with
              | Json.obj fs =>
                .ok [Json.obj [("function",
                  Json.obj [("name", n), ("arguments", (jlookup fs "arguments").getD (Json.obj []))])]]
              | _ => .error "TypeError: subscript on non-dict"
      else
        match memb "tool_call" data with
        | .error e => .error e
        | .ok true =>
          match subscr data "tool_call" with
          | .error e => .error e
          | .ok (Json.obj entries) =>
            .ok (entries.map (fun pr =>
              Json.obj [("function", Json.obj [("name", Json.str pr.1), ("arguments", pr.2)])]))
          | .ok _ => .error "AttributeError: items"
        | .ok false => .ok []

/-- The loop of _parse_tool_call_from_text over the decoded blocks: a
block whose json.loads failed (modelled as none) is skipped by the
except-continue clause; errors raised by the shape dispatch propagate. -/
def collectCalls : List (Option Json) → Except String (List Json)
  | [] => .ok []
  | none :: rest => collectCalls rest
  | some data :: rest =>
    match normalizeData data with
    | .error e => .error e
    | .ok cs =>
      match collectCalls rest with
      | .error e => .error e
      | .ok rs => .ok (cs ++ rs)

/-- Result of running re.findall for fenced json blocks and json.loads
over an assistant text: the decode outcome of each fenced block in
order, and the decode outcome of the whole text.  These are the two
library calls of _parse_tool_call_from_text, supplied as an oracle. -/
structure TextAnalysis where
  blocks : List (Option Json)
  whole : Option Json

/-- _parse_tool_call_from_text (src/chatter.py lines 83-137): use the
fenced blocks when any were found, otherwise fall back to the whole
text if and only if it decodes as JSON. -/
def parseToolCallFromText (ta : TextAnalysis) : Except String (List Json) :=
  let blocks :=
    if ta.blocks.isEmpty then
      match ta.whole with
      | some j => [some j]
      | none => []
    else ta.blocks
  collectCalls blocks

/-- Role of a conversation turn. -/
inductive Role where
  | system
  | user
  | assistant
  | tool
deriving DecidableEq

/-- One entry of the conversation log chat_history: a dict with role,
content and, for tool turns, a tool_call_id. -/
structure Turn where
  role : Role
  content : String
  toolCallId : Option String := none
deriving DecidableEq

def userTurn (c : String) : Turn := { role := Role.user, content := c }

def assistantTurn (c : String) : Turn := { role := Role.assistant, content := c }

def toolTurn (c : String) (tcid : String) : Turn :=
  { role := Role.tool, content := c, toolCallId := some tcid }

/-- The system prompt of chatter.py (braces and single quotes written
as hex escapes). -/
def system_prompt_content : String :=
  "You are Chatter, a senior developer AI assistant. Be smart, fast, and helpful.\n\n" ++
  "Tool Usage:\n" ++
  "- Use tools only when necessary for the user\x27s request\n" ++
  "- Prefer direct tool_calls over JSON blocks\n" ++
  "- If using JSON blocks, format: `\x7b\"function\": \x7b\"name\": \"tool_name\", \"arguments\": \x7b...\x7d\x7d\x7d`\n" ++
  "- Never explain tool usage, just execute\n" ++
  "- Provide real values, no placeholders\n\n" ++
  "Available tools: read_file_tool, write_file_tool, web_fetch_tool, web_search_tool, " ++
  "list_directory_tool, glob_tool, search_file_content_tool, run_shell_command_tool\n\n" ++
  "Respond directly and efficiently to user requests."

def systemTurn : Turn := { role := Role.system, content := system_prompt_content }

/-- Initial value of the module global chat_history of chatter.py. -/
def chat_history_init : List Turn := [systemTurn]

/-- Default model name from the Config dataclass (the OLLAMA_MODEL
environment override is external configuration). -/
def OLLAMA_MODEL : String := "mervinpraison/llama3.2-3B-instruct:8b"

/-- The function attribute of an Ollama ToolCall object: name and
arguments as read by getattr in _execute_tool_call (dict(...) of the
arguments attribute always yields a mapping). -/
structure OllamaFunction where
  name : Option String
  arguments : List (String × Json)

/-- An element of the tool_calls list assembled by ask_ollama: either a
JSON value appended by _parse_tool_call_from_text, or a structured item
from the stream, carrying its function attribute (none when the object
has no function attribute — this also models plain dicts without a
function key, which fall through getattr the same way). -/
inductive ToolCallItem where
  | fromText (data : Json)
  | structured (fn : Option OllamaFunction)

/-- A streamed chunk: its message content (empty string when absent —
the code only appends truthy content) and its message tool_calls list. -/
structure Chunk where
  content : String
  toolCalls : List (Option OllamaFunction)

/-- How a stream ends once its chunks are exhausted: normally, by a
KeyboardInterrupt during consumption, or by some other exception
raised mid-stream. -/
inductive Terminal where
  | done
  | interrupted
  | raised (e : String)
deriving DecidableEq

/-- A lazily produced Gateway response stream: the chunks delivered
before the end, and how it ended. -/
structure Stream where
  chunks : List Chunk
  terminal : Terminal

/-- An exception raised by the ollama.chat call itself, before any
event: whether it is a requests ConnectionError, and its message. -/
structure GWErr where
  isConn : Bool
  msg : String

/-- The backend oracle: invocation index and the history passed as
messages, to either an exception at call time or a response stream. -/
def Gateway : Type := Nat → List Turn → Except GWErr Stream

/-- The AVAILABLE_TOOLS mapping: tool name to capability.  A capability
takes the keyword arguments and either returns its string result or
raises (error), which the executor catches. -/
def Registry : Type := List (String × (List (String × Json) → Except String String))

/-- _handle_ollama_error (src/chatter.py lines 455-460). -/
def handleOllamaError (e : GWErr) (model : String) : String :=
  if e.isConn then
    "Error: Could not connect to Ollama server. Is it running? (" ++ e.msg ++ ")"
  else
    "Error with Ollama model \x27" ++ model ++ "\x27: " ++ e.msg

/-- The guarded invocation available_tools[function_name](**function_args)
together with the membership test that precedes it
(src/chatter.py lines 493-505), for a name already known to be a
string: unknown names give the textual unknown-tool result; inside the
try block, a non-mapping argument value or a raising capability is
caught and converted to the textual error result. -/
def runRegistered (fname : String) (fargs : Json) (reg : Registry) : String :=
  match reg.find? (fun p => p.1 == fname) with
  | none => "Unknown tool: " ++ fname
  | some pr =>
    match fargs with
    | Json.obj kw =>
      match pr.2 kw with
      | .ok out => out
      | .error e => "Error executing tool \x27" ++ fname ++ "\x27: " ++ e
    | _ => "Error executing tool \x27" ++ fname ++ "\x27: TypeError: arguments must be a mapping"

/-- _execute_tool_call (src/chatter.py lines 463-505).  Returns
ok none for the (None, None) skip, ok (id, output) for an executed
request, and error for an exception that the function does not catch
and that therefore propagates to the caller: func_data.get on a
non-dict function value (AttributeError), and the membership test
function_name in available_tools on an unhashable name (TypeError). -/
def executeToolCall (t : Nat) (item : ToolCallItem) (reg : Registry) :
    Except String (Option (String × String)) :=
  match item with
  | .structured none => .ok none
  | .structured (some f) =>
    match f.name with
    | none => .ok none
    | some n =>
      if n == "" then .ok none
      else .ok (some ("generated_ollama_tool_id_" ++ toString t,
        runRegistered n (Json.obj f.arguments) reg))
  | .fromText data =>
    match data with
    | .obj fields =>
      if fields.any (fun p => p.1 == "function") then
        match jlookup fields "function" with
        | some (Json.obj ff) =>
          let fname := jlookup ff "name"
          let fargs := (jlookup ff "arguments").getD (Json.obj [])
          match fname with
          | none => .ok none
          | some v =>
            if jsonTruthy v then
              match v with
              | .str s => .ok (some ("generated_from_text_" ++ toString t,
                  runRegistered s fargs reg))
              | .obj _ => .error "TypeError: unhashable type"
              | .arr _ => .error "TypeError: unhashable type"
              | w => .ok (some ("generated_from_text_" ++ toString t,
                  "Unknown tool: " ++ pyStr w))
            else .ok none
        | some _ => .error "AttributeError: get"
        | none => .ok none
      else .ok none
    | _ => .ok none

/-- The tool-execution loop of ask_ollama (src/chatter.py lines
562-575): each item is executed in order; a (None, None) result is
skipped, otherwise a tool turn with the output and id is appended.  An
exception from _execute_tool_call aborts the loop, leaving the turns
appended so far (second component some e). -/
def runTools : List ToolCallItem → Nat → List Turn → Registry → List Turn × Option String
  | [], _, h, _ => (h, none)
  | item :: rest, t, h, reg =>
    match executeToolCall t item reg with
    | .error e => (h, some e)
    | .ok none => runTools rest (t + 1) h reg
    | .ok (some pr) => runTools rest (t + 1) (h ++ [toolTurn pr.2 pr.1]) reg

/-- The everything ask_ollama leaves behind for one round: the value it
returns (or, as error, an exception it lets propagate to its caller),
the chat_history after the round, the number of ollama.chat
invocations attempted, and the tool_calls list it assembled. -/
structure RoundOutcome where
  result : Except String String
  history : List Turn
  gatewayCalls : Nat
  toolCalls : List ToolCallItem

/-- full_response_content: concatenation of the streamed content
chunks (src/chatter.py lines 536-541; absent or empty content
contributes nothing). -/
def aggContent (s : Stream) : String :=
  s.chunks.foldl (fun acc c => acc ++ c.content) ""

/-- The structured tool_calls collected from the stream
(src/chatter.py lines 543-545). -/
def structCallsOf (s : Stream) : List ToolCallItem :=
  (s.chunks.map (fun c => c.toolCalls.map ToolCallItem.structured)).flatten

/-- Lines 552-558 of src/chatter.py: text extraction runs only when no
structured calls arrived and the aggregated content is nonempty; when
it yields nothing the aggregated content is appended as the assistant
turn.  Returns the tool_calls list and the history afterwards, or the
exception the extractor raised. -/
def extractionStep (tcs : List ToolCallItem) (content : String) (hist : List Turn)
    (ta : TextAnalysis) : Except String (List ToolCallItem × List Turn) :=
  if tcs.isEmpty && !(content == "") then
    match parseToolCallFromText ta with
    | .error e => .error e
    | .ok parsed =>
      if parsed.isEmpty then .ok ([], hist ++ [assistantTurn content])
      else .ok (tcs ++ parsed.map ToolCallItem.fromText, hist)
  else .ok (tcs, hist)

/-- Lines 577-597 of src/chatter.py: the continuation call after the
tool executions.  An exception at the chat call is caught and its
message returned; the second stream is consumed with no exception
handler at all, aggregating only content — tool-call events of the
second response are never read, let alone executed. -/
def secondCall (hist3 : List Turn) (tcs : List ToolCallItem) (g : Gateway) : RoundOutcome :=
  match g 2 hist3 with
  | .error e => { result := .ok e.msg, history := hist3, gatewayCalls := 3, toolCalls := tcs }
  | .ok s2 =>
    let finalAiResponse := aggContent s2
    match s2.terminal with
    | .done =>
      { result := .ok finalAiResponse, history := hist3 ++ [assistantTurn finalAiResponse],
        gatewayCalls := 3, toolCalls := tcs }
    | .interrupted =>
      { result := .error "KeyboardInterrupt", history := hist3, gatewayCalls := 3, toolCalls := tcs }
    | .raised e =>
      { result := .error e, history := hist3, gatewayCalls := 3, toolCalls := tcs }

/-- Lines 561-600 of src/chatter.py: execute the assembled tool calls
and continue, or — with no tool calls — return the aggregated first
response (the assistant turn for that case was already appended by
extractionStep). -/
def roundAfterExtraction (hist2 : List Turn) (tcs : List ToolCallItem) (content : String)
    (g : Gateway) (reg : Registry) : RoundOutcome :=
  if tcs.isEmpty then
    { result := .ok content, history := hist2, gatewayCalls := 2, toolCalls := tcs }
  else
    match runTools tcs 0 hist2 reg with
    | (hist3, some e) =>
      { result := .error e, history := hist3, gatewayCalls := 2, toolCalls := tcs }
    | (hist3, none) => secondCall hist3 tcs g

/-- Lines 531-600 of src/chatter.py, once the stream object exists:
consume it (KeyboardInterrupt returns the empty string, leaving the
history as it was with nothing appended; any other mid-stream exception
propagates, likewise appending nothing), then extract and execute. -/
def roundAfterStream (hist1 : List Turn) (s : Stream) (g : Gateway) (reg : Registry)
    (ta : TextAnalysis) : RoundOutcome :=
  let content := aggContent s
  let tcs := structCallsOf s
  match s.terminal with
  | .interrupted =>
    { result := .ok "", history := hist1, gatewayCalls := 2, toolCalls := tcs }
  | .raised e =>
    { result := .error e, history := hist1, gatewayCalls := 2, toolCalls := tcs }
  | .done =>
    match extractionStep tcs content hist1 ta with
    | .error e =>
      { result := .error e, history := hist1, gatewayCalls := 2, toolCalls := tcs }
    | .ok (tcs2, hist2) => roundAfterExtraction hist2 tcs2 content g reg

/-- ask_ollama (src/chatter.py lines 508-600).  The user turn is
appended first; then ollama.chat is invoked twice in a row with
identical arguments (the duplicated try blocks at lines 511-519 and
521-529 — the first returned generator is discarded), each invocation
either raising (the just-appended user turn is popped and the error
message returned) or producing the stream; the stream of the second
invocation is then consumed.  The analyze oracle stands for
re.findall plus json.loads over the aggregated text. -/
def askOllama (hist : List Turn) (prompt : String) (g : Gateway) (reg : Registry)
    (analyze : String → TextAnalysis) : RoundOutcome :=
  let hist1 := hist ++ [userTurn prompt]
  match g 0 hist1 with
  | .error e =>
    { result := .ok (handleOllamaError e OLLAMA_MODEL), history := hist1.dropLast,
      gatewayCalls := 1, toolCalls := [] }
  | .ok _ =>
    match g 1 hist1 with
    | .error e =>
      { result := .ok (handleOllamaError e OLLAMA_MODEL), history := hist1.dropLast,
        gatewayCalls := 2, toolCalls := [] }
    | .ok s => roundAfterStream hist1 s g reg (analyze (aggContent s))

/-- glob_tool (src/chatter.py lines 221-237), with the process working
directory made explicit.  chdir is the os.chdir oracle (error = it
raised), globFn is the glob.glob oracle applied to the pattern and the
directory that is current at that moment.  Returns the result string
and the working directory on exit.  The source wraps the whole body in
one try/except with no finally: on an exception after the chdir into
dirPath, the except branch returns the error string with the working
directory still dirPath. -/
def glob_tool (pattern : String) (dirPath : String) (cwd0 : String)
    (chdir : String → Except String Unit)
    (globFn : String → String → Except String (List String)) : String × String :=
  let errRes := fun (e : String) =>
    "Error globbing for pattern \x27" ++ pattern ++ "\x27 in \x27" ++ dirPath ++ "\x27: " ++ e
  match chdir dirPath with
  | .error e => (errRes e, cwd0)
  | .ok _ =>
    match globFn pattern dirPath with
    | .error e => (errRes e, dirPath)
    | .ok matchingFiles =>
      match chdir cwd0 with
      | .error e => (errRes e, dirPath)
      | .ok _ =>
        if !matchingFiles.isEmpty then
          ("Files matching pattern \x27" ++ pattern ++ "\x27 in \x27" ++ dirPath ++ "\x27:\n" ++
            String.intercalate "\n" matchingFiles, cwd0)
        else
          ("No files matching pattern \x27" ++ pattern ++ "\x27 found in \x27" ++ dirPath ++ "\x27.", cwd0)

/-- The two chat_history bindings after from chatter import chat_history
in bella_tui.py: the list chatter.chat_history that ask_ollama reads
and mutates, the list the bella_tui module global currently names, and
whether the two are still the same list object (they are until the
clear command rebinds the bella_tui one). -/
structure TuiState where
  chatterHist : List Turn
  tuiHist : List Turn
  aliased : Bool

/-- The list the name chat_history denotes inside bella_tui. -/
def tuiView (s : TuiState) : List Turn :=
  if s.aliased then s.chatterHist else s.tuiHist

/-- The clear branch of BellaTUI.run_interactive (src/bella_tui.py
lines 272-277): global chat_history; chat_history = [chat_history[0]].
This rebinds only the bella_tui module global to a fresh one-turn
list; chatter.chat_history is untouched. -/
def tuiClear (s : TuiState) : TuiState :=
  { chatterHist := s.chatterHist, tuiHist := (tuiView s).take 1, aliased := false }

/-- One processed user input in the TUI (process_user_input calling
ask_ollama): ask_ollama mutates chatter.chat_history in place, so the
mutation is visible through the bella_tui binding exactly while the
two are still aliased. -/
def tuiRound (s : TuiState) (prompt : String) (g : Gateway) (reg : Registry)
    (analyze : String → TextAnalysis) : TuiState :=
  let o := askOllama s.chatterHist prompt g reg analyze
  { chatterHist := o.history,
    tuiHist := if s.aliased then o.history else s.tuiHist,
    aliased := s.aliased }

/-- What one iteration of the while loop of chatter.main
(src/chatter.py lines 617-634) decides to do with the raw prompt text:
the input is stripped, then exit breaks, /clear only clears the
terminal screen, an empty remainder is skipped, and anything else is
passed to ask_ollama. -/
inductive MainAction where
  | exits
  | clears
  | noop
  | asks (s : String)

/-- Python str.strip: drop leading and trailing whitespace. -/
def pyStrip (s : String) : String :=
  ⟨(((s.toList.dropWhile Char.isWhitespace).reverse.dropWhile Char.isWhitespace).reverse)⟩

/-- Python str.lower, restricted to the ASCII commands it is compared
against here. -/
def pyLower (s : String) : String :=
  ⟨s.toList.map Char.toLower⟩

def mainIteration (raw : String) : MainAction :=
  let userInput := pyStrip raw
  if pyLower userInput == "exit" then MainAction.exits
  else if pyLower userInput == "/clear" then MainAction.clears
  else if userInput == "" then MainAction.noop
  else MainAction.asks userInput

/-- Effect of one main-loop iteration on the conversation store,
together with the number of ollama.chat invocations it makes: only the
asks action touches either. -/
def mainRound (hist : List Turn) (raw : String) (g : Gateway) (reg : Registry)
    (analyze : String → TextAnalysis) : List Turn × Nat :=
  match mainIteration raw with
  | MainAction.asks s =>
    let o := askOllama hist s g reg analyze
    (o.history, o.gatewayCalls)
  | _ => (hist, 0)

/-! Shared concrete fixtures for the evaluations and witnesses below. -/

/-- A one-entry registry whose capability always succeeds. -/
def regEx : Registry := [("read_file_tool", fun _ => Except.ok "file stuff")]

/-- Analysis oracle for text that json.loads rejects and that carries
no fenced json block. -/
def anNone : String → TextAnalysis := fun _ => ⟨[], none⟩

/-! Helper lemmas about the executor loop and the controller stages. -/

/-- The tool loop only ever appends to the history it is given. -/
theorem runTools_shape (items : List ToolCallItem) (t : Nat) (h : List Turn) (reg : Registry) :
    ∃ l r, runTools items t h reg = (h ++ l, r) := by
  induction items generalizing t h with
  | nil => exact ⟨[], none, by simp [runTools]⟩
  | cons item rest ih =>
    cases hx : executeToolCall t item reg with
    | error e => exact ⟨[], some e, by simp [runTools, hx]⟩
    | ok o =>
      cases o with
      | none =>
        obtain ⟨l, r, hr⟩ := ih (t + 1) h
        exact ⟨l, r, by simp [runTools, hx, hr]⟩
      | some pr =>
        obtain ⟨l, r, hr⟩ := ih (t + 1) (h ++ [toolTurn pr.2 pr.1])
        exact ⟨toolTurn pr.2 pr.1 :: l, r, by simp [runTools, hx, hr]⟩

/-- When no execution raises, the tool loop finishes, appending only
tool turns. -/
theorem runTools_allOk (items : List ToolCallItem) (reg : Registry)
    (hx : ∀ (u : Nat) (item : ToolCallItem), item ∈ items →
      ∃ r, executeToolCall u item reg = .ok r) :
    ∀ (t : Nat) (h : List Turn), ∃ ts, runTools items t h reg = (h ++ ts, none) ∧
      ∀ tr ∈ ts, tr.role = Role.tool := by
  induction items with
  | nil => exact fun t h => ⟨[], by simp [runTools], by simp⟩
  | cons item rest ih =>
    intro t h
    obtain ⟨r, hr⟩ := hx t item (by simp)
    have hrest : ∀ (u : Nat) (it : ToolCallItem), it ∈ rest →
        ∃ r, executeToolCall u it reg = .ok r :=
      fun u it hm => hx u it (by simp [hm])
    cases r with
    | none =>
      obtain ⟨ts, hts, hroles⟩ := ih hrest (t + 1) h
      exact ⟨ts, by simp [runTools, hr, hts], hroles⟩
    | some pr =>
      obtain ⟨ts, hts, hroles⟩ := ih hrest (t + 1) (h ++ [toolTurn pr.2 pr.1])
      refine ⟨toolTurn pr.2 pr.1 :: ts, by simp [runTools, hr, hts], ?_⟩
      intro tr htr
      rcases List.mem_cons.mp htr with h1 | h2
      · simp [h1, toolTurn]
      · exact hroles tr h2

/-- When every execution yields an id and an output, the tool loop
appends exactly one tool turn per item. -/
theorem runTools_allSome (items : List ToolCallItem) (reg : Registry)
    (hx : ∀ (u : Nat) (item : ToolCallItem), item ∈ items →
      ∃ pr, executeToolCall u item reg = .ok (some pr)) :
    ∀ (t : Nat) (h : List Turn), ∃ ts, runTools items t h reg = (h ++ ts, none) ∧
      ts.length = items.length ∧ ∀ tr ∈ ts, tr.role = Role.tool := by
  induction items with
  | nil => exact fun t h => ⟨[], by simp [runTools], by simp, by simp⟩
  | cons item rest ih =>
    intro t h
    obtain ⟨pr, hr⟩ := hx t item (by simp)
    have hrest : ∀ (u : Nat) (it : ToolCallItem), it ∈ rest →
        ∃ pr, executeToolCall u it reg = .ok (some pr) :=
      fun u it hm => hx u it (by simp [hm])
    obtain ⟨ts, hts, hlen, hroles⟩ := ih hrest (t + 1) (h ++ [toolTurn pr.2 pr.1])
    refine ⟨toolTurn pr.2 pr.1 :: ts, by simp [runTools, hr, hts], by simp [hlen], ?_⟩
    intro tr htr
    rcases List.mem_cons.mp htr with h1 | h2
    · simp [h1, toolTurn]
    · exact hroles tr h2

/-- With a nonempty tool_calls list, the extraction step is skipped
entirely and returns its inputs unchanged, whatever the analysis. -/
theorem extractionStep_of_ne (tcs : List ToolCallItem) (content : String) (hist : List Turn)
    (ta : TextAnalysis) (hne : tcs ≠ []) :
    extractionStep tcs content hist ta = .ok (tcs, hist) := by
  cases tcs with
  | nil => exact absurd rfl hne
  | cons a l => simp [extractionStep]

/-- The extraction step leaves the history unchanged except possibly
appending the aggregated content as an assistant turn. -/
theorem extractionStep_hist (tcs tcs2 : List ToolCallItem) (content : String)
    (hist hist2 : List Turn) (ta : TextAnalysis)
    (hx : extractionStep tcs content hist ta = .ok (tcs2, hist2)) :
    hist2 = hist ∨ hist2 = hist ++ [assistantTurn content] := by
  unfold extractionStep at hx
  split at hx
  · cases hp : parseToolCallFromText ta with
    | error e => rw [hp] at hx; cases hx
    | ok parsed =>
      rw [hp] at hx
      by_cases hemp : parsed.isEmpty
      · simp [hemp] at hx
        exact Or.inr hx.2.symm
      · simp [hemp] at hx
        exact Or.inl hx.2.symm
  · cases hx
    exact Or.inl rfl

/-- When the extraction step hands back a nonempty tool_calls list the
history is untouched (the assistant turn is appended only in the
no-calls branch). -/
theorem extractionStep_hist_of_ne (tcs tcs2 : List ToolCallItem) (content : String)
    (hist hist2 : List Turn) (ta : TextAnalysis)
    (hx : extractionStep tcs content hist ta = .ok (tcs2, hist2)) (hne : tcs2 ≠ []) :
    hist2 = hist := by
  unfold extractionStep at hx
  split at hx
  · cases hp : parseToolCallFromText ta with
    | error e => rw [hp] at hx; cases hx
    | ok parsed =>
      rw [hp] at hx
      by_cases hemp : parsed.isEmpty
      · simp [hemp] at hx
        exact absurd hx.1 hne
      · simp [hemp] at hx
        exact hx.2.symm
  · cases hx
    rfl

/-- The continuation call records three gateway invocations on every
one of its branches. -/
theorem secondCall_calls (hist3 : List Turn) (tcs : List ToolCallItem) (g : Gateway) :
    (secondCall hist3 tcs g).gatewayCalls = 3 := by
  cases hg : g 2 hist3 with
  | error e => simp [secondCall, hg]
  | ok s2 => cases ht : s2.terminal <;> simp [secondCall, hg, ht]

/-- The continuation call passes the assembled tool_calls list through
unchanged. -/
theorem secondCall_toolCalls (hist3 : List Turn) (tcs : List ToolCallItem) (g : Gateway) :
    (secondCall hist3 tcs g).toolCalls = tcs := by
  cases hg : g 2 hist3 with
  | error e => simp [secondCall, hg]
  | ok s2 => cases ht : s2.terminal <;> simp [secondCall, hg, ht]

/-- The phase after extraction reports exactly the assembled
tool_calls list. -/
theorem roundAfterExtraction_toolCalls (hist2 : List Turn) (tcs : List ToolCallItem)
    (content : String) (g : Gateway) (reg : Registry) :
    (roundAfterExtraction hist2 tcs content g reg).toolCalls = tcs := by
  unfold roundAfterExtraction
  split
  · rfl
  · cases hr : runTools tcs 0 hist2 reg with
    | mk hist3 err =>
      cases err with
      | none => exact secondCall_toolCalls hist3 tcs g
      | some e => rfl

/-- Two gateways agreeing on all histories extending the given one
produce the same post-extraction phase. -/
theorem roundAfterExtraction_congr (hist2 : List Turn) (tcs : List ToolCallItem)
    (content : String) (g g' : Gateway) (reg : Registry)
    (hagree : ∀ h3, hist2 <+: h3 → g 2 h3 = g' 2 h3) :
    roundAfterExtraction hist2 tcs content g reg = roundAfterExtraction hist2 tcs content g' reg := by
  unfold roundAfterExtraction
  split
  · rfl
  · obtain ⟨l, r, hr⟩ := runTools_shape tcs 0 hist2 reg
    rw [hr]
    cases r with
    | some e => rfl
    | none =>
      show secondCall (hist2 ++ l) tcs g = secondCall (hist2 ++ l) tcs g'
      unfold secondCall
      rw [hagree (hist2 ++ l) (List.prefix_append hist2 l)]

/-- Two gateways agreeing on all histories extending the current one
produce the same post-stream phase. -/
theorem roundAfterStream_congr (hist1 : List Turn) (s : Stream) (g g' : Gateway)
    (reg : Registry) (ta : TextAnalysis)
    (hagree : ∀ h3, hist1 <+: h3 → g 2 h3 = g' 2 h3) :
    roundAfterStream hist1 s g reg ta = roundAfterStream hist1 s g' reg ta := by
  cases ht : s.terminal with
  | interrupted => simp [roundAfterStream, ht]
  | raised e => simp [roundAfterStream, ht]
  | done =>
    simp only [roundAfterStream, ht]
    cases hx : extractionStep (structCallsOf s) (aggContent s) hist1 ta with
    | error e => rfl
    | ok prr =>
      obtain ⟨tcs2, hist2⟩ := prr
      have hpre : hist1 <+: hist2 := by
        rcases extractionStep_hist _ _ _ _ _ _ hx with h | h
        · rw [h]
        · rw [h]; exact List.prefix_append _ _
      exact roundAfterExtraction_congr hist2 tcs2 (aggContent s) g g' reg
        (fun h3 hp => hagree h3 (hpre.trans hp))

/-- Once both initial invocations produced streams, ask_ollama is the
post-stream phase on the second stream. -/
theorem askOllama_eq_afterStream (hist : List Turn) (p : String) (g : Gateway)
    (reg : Registry) (an : String → TextAnalysis) (s0 s : Stream)
    (h0 : g 0 (hist ++ [userTurn p]) = .ok s0)
    (h1 : g 1 (hist ++ [userTurn p]) = .ok s) :
    askOllama hist p g reg an =
      roundAfterStream (hist ++ [userTurn p]) s g reg (an (aggContent s)) := by
  simp only [askOllama]
  rw [h0, h1]

/-- A failing first invocation rolls the user turn back and returns
the handled error message, after a single gateway invocation. -/
theorem askOllama_err0 (hist : List Turn) (p : String) (g : Gateway) (reg : Registry)
    (an : String → TextAnalysis) (e : GWErr)
    (h0 : g 0 (hist ++ [userTurn p]) = .error e) :
    askOllama hist p g reg an =
      { result := .ok (handleOllamaError e OLLAMA_MODEL), history := hist,
        gatewayCalls := 1, toolCalls := [] } := by
  simp only [askOllama]
  rw [h0]
  simp

/-! Claim theorems. -/

/-- C4: for every tool name n and argument mapping a, the four
accepted JSON shapes describing the same logical call — the function
wrapper, name plus parameters, the tool_call map, and bare name plus
arguments (arguments defaulting to the empty mapping when absent) —
are each normalized by the extractor to the same single function-form
request, hence to equal (name, arguments) pairs; and parsing the
read_file_tool function-form object as the whole assistant text yields
exactly that one request. -/
theorem c4_four_shapes_normalize_equal : ∀ (n : String) (a : Json),
    normalizeData (Json.obj [("function", Json.obj [("name", Json.str n), ("arguments", a)])]) =
      .ok [Json.obj [("function", Json.obj [("name", Json.str n), ("arguments", a)])]] ∧
    normalizeData (Json.obj [("name", Json.str n), ("parameters", a)]) =
      .ok [Json.obj [("function", Json.obj [("name", Json.str n), ("arguments", a)])]] ∧
    normalizeData (Json.obj [("tool_call", Json.obj [(n, a)])]) =
      .ok [Json.obj [("function", Json.obj [("name", Json.str n), ("arguments", a)])]] ∧
    normalizeData (Json.obj [("name", Json.str n), ("arguments", a)]) =
      .ok [Json.obj [("function", Json.obj [("name", Json.str n), ("arguments", a)])]] ∧
    normalizeData (Json.obj [("name", Json.str n)]) =
      .ok [Json.obj [("function", Json.obj [("name", Json.str n), ("arguments", Json.obj [])])]] ∧
    parseToolCallFromText ⟨[], some (Json.obj [("function", Json.obj
        [("name", Json.str "read_file_tool"),
         ("arguments", Json.obj [("file_path", Json.str "a.txt")])])])⟩ =
      .ok [Json.obj [("function", Json.obj
        [("name", Json.str "read_file_tool"),
         ("arguments", Json.obj [("file_path", Json.str "a.txt")])])]] := by
  intro n a
  exact ⟨rfl, rfl, rfl, rfl, rfl, rfl⟩

/-- C9: an input that strips to the empty string is a no-op of the
main loop: no turn is appended to the conversation store and no
ollama.chat invocation is made. -/
theorem c9_empty_input_noop (hist : List Turn) (raw : String) (g : Gateway) (reg : Registry)
    (an : String → TextAnalysis) (hempty : pyStrip raw = "") :
    mainRound hist raw g reg an = (hist, 0) := by
  have hiter : mainIteration raw = MainAction.noop := by
    unfold mainIteration
    rw [hempty]
    rfl
  unfold mainRound
  rw [hiter]

/-- Witness for C9 at a concrete whitespace-only input. -/
theorem c9_empty_input_noop_witness :
    mainRound chat_history_init "  \n\t " (fun _ _ => Except.error ⟨true, "x"⟩) regEx anNone =
      (chat_history_init, 0) :=
  c9_empty_input_noop chat_history_init "  \n\t " (fun _ _ => Except.error ⟨true, "x"⟩) regEx
    anNone (by decide)

/-- Gateway for the C1 evaluation: both initial invocations return a
stream with one structured read_file_tool call and no content, and the
continuation invocation returns a stream whose chunk carries both
content and a structured tool-call event. -/
def gC1 : Gateway := fun i _ =>
  if i == 2 then
    .ok ⟨[⟨"All done.", [some ⟨some "write_file_tool", [("file_path", Json.str "b.txt")]⟩]⟩],
      Terminal.done⟩
  else
    .ok ⟨[⟨"", [some ⟨some "read_file_tool", [("file_path", Json.str "a.txt")]⟩]⟩],
      Terminal.done⟩

/-- C1: evaluation of a tool round.  The second response carries a
structured tool-call event, yet the round ends with exactly the one
tool turn from the first response plus one final assistant turn
holding only the second response content — the second response is
aggregated as text only, never executed.  However the round performs
three gateway invocations, not at most two: ollama.chat is invoked
twice up front (the duplicated block at src/chatter.py lines 511-529)
and once for the continuation. -/
theorem c1_second_response_not_executed_but_three_calls :
    askOllama [systemTurn] "read a.txt" gC1 regEx anNone =
      { result := .ok "All done.",
        history := [systemTurn, userTurn "read a.txt",
          toolTurn "file stuff" "generated_ollama_tool_id_0", assistantTurn "All done."],
        gatewayCalls := 3,
        toolCalls := [ToolCallItem.structured
          (some ⟨some "read_file_tool", [("file_path", Json.str "a.txt")]⟩)] } := by
  rfl

/-- Gateway for the C5 evaluation: a plain no-tool reply. -/
def gC5 : Gateway := fun _ _ => .ok ⟨[⟨"hello there", []⟩], Terminal.done⟩

/-- C5: evaluation of one TUI round followed by the clear command.
The clear branch rebinds only the bella_tui module global; the store
that subsequent rounds read, chatter.chat_history, still holds all
three turns afterwards instead of exactly the system turn (its index 0
does remain the system turn). -/
theorem c5_clear_leaves_round_store_unchanged :
    (tuiClear (tuiRound ⟨[systemTurn], [systemTurn], true⟩ "hi" gC5 regEx anNone)).chatterHist =
        [systemTurn, userTurn "hi", assistantTurn "hello there"] ∧
    (tuiClear (tuiRound ⟨[systemTurn], [systemTurn], true⟩ "hi" gC5 regEx anNone)).tuiHist =
        [systemTurn] ∧
    (tuiClear (tuiRound ⟨[systemTurn], [systemTurn], true⟩ "hi" gC5 regEx anNone)).chatterHist.length ≠ 1 := by
  exact ⟨rfl, rfl, by decide⟩

/-- Gateway for the C6 counterexample: the model answers with a text
that json.loads accepts and whose object has a function key holding
the number 5. -/
def gC6 : Gateway := fun _ _ =>
  .ok ⟨[⟨"\x7b\"function\": 5\x7d", []⟩], Terminal.done⟩

/-- Analysis of that text: no fenced block; the whole text decodes. -/
def anC6 : String → TextAnalysis := fun _ =>
  ⟨[], some (Json.obj [("function", Json.num 5)])⟩

/-- C6 counterexample: executing a tool request can raise to the
controller.  The extractor accepts the object with a function key and
appends it as a request; _execute_tool_call then evaluates
func_data.get on the number 5, an AttributeError that nothing catches,
so ask_ollama ends with a propagating exception instead of a second
gateway call. -/
theorem c6_execute_can_raise_counterexample :
    askOllama [systemTurn] "go" gC6 regEx anC6 =
      { result := .error "AttributeError: get",
        history := [systemTurn, userTurn "go"],
        gatewayCalls := 2,
        toolCalls := [ToolCallItem.fromText (Json.obj [("function", Json.num 5)])] } := by
  rfl

/-- Follows the words of the amended claim: a malformed text-extracted
request is one whose function value is not a JSON object, or whose
name is a truthy JSON object or array (unhashable at the registry
membership test).  This is the specification-side predicate the
characterization below compares against executeToolCall. -/
def malformedExtracted : ToolCallItem → Bool
  | ToolCallItem.fromText (Json.obj fields) =>
    if fields.any (fun p => p.1 == "function") then
      match jlookup fields "function" with
      | some (Json.obj ff) =>
        match jlookup ff "name" with
        | some w =>
          jsonTruthy w &&
            (match w with
             | Json.obj _ => true
             | Json.arr _ => true
             | _ => false)
        | none => false
      | some _ => true
      | none => false
    else false
  | _ => false

/-- C6 amended: executing a tool request raises to the controller
exactly when the request is a malformed text-extracted one (function
value not a JSON object, or name an unhashable truthy object or
array); every other request — structured or text-extracted — never
raises.  A well-formed name that is not in the registry yields the
textual unknown-tool result, an exception raised by a registered
capability is caught and converted to the textual result naming the
failing operation, and whenever every assembled request executes
without raising the round continues to its continuation gateway
call. -/
theorem c6_executor_amended :
    (∀ (t : Nat) (item : ToolCallItem) (reg : Registry),
      (∃ e, executeToolCall t item reg = .error e) ↔ malformedExtracted item = true) ∧
    (∀ (t : Nat) (item : ToolCallItem) (reg : Registry),
      malformedExtracted item = false → ∃ r, executeToolCall t item reg = .ok r) ∧
    (∀ (t : Nat) (f : Option OllamaFunction) (reg : Registry),
      ∃ r, executeToolCall t (ToolCallItem.structured f) reg = .ok r) ∧
    (∀ (t : Nat) (n : String) (args : List (String × Json)) (reg : Registry),
      ¬n = "" → reg.find? (fun p => p.1 == n) = none →
      executeToolCall t (ToolCallItem.structured (some ⟨some n, args⟩)) reg =
        .ok (some ("generated_ollama_tool_id_" ++ toString t, "Unknown tool: " ++ n))) ∧
    (∀ (t : Nat) (n : String) (args : List (String × Json)) (reg : Registry)
        (pr : String × (List (String × Json) → Except String String)) (e : String),
      ¬n = "" → reg.find? (fun p => p.1 == n) = some pr → pr.2 args = .error e →
      executeToolCall t (ToolCallItem.structured (some ⟨some n, args⟩)) reg =
        .ok (some ("generated_ollama_tool_id_" ++ toString t,
          "Error executing tool \x27" ++ n ++ "\x27: " ++ e))) ∧
    (∀ (t : Nat) (fields : List (String × Json)) (ff : List (String × Json))
        (s : String) (reg : Registry),
      fields.any (fun p => p.1 == "function") = true →
      jlookup fields "function" = some (Json.obj ff) →
      jlookup ff "name" = some (Json.str s) → ¬s = "" →
      executeToolCall t (ToolCallItem.fromText (Json.obj fields)) reg =
        .ok (some ("generated_from_text_" ++ toString t,
          runRegistered s ((jlookup ff "arguments").getD (Json.obj [])) reg))) ∧
    (∀ (s : String) (fargs : Json) (reg : Registry),
      reg.find? (fun p => p.1 == s) = none →
      runRegistered s fargs reg = "Unknown tool: " ++ s) ∧
    (∀ (s : String) (kw : List (String × Json)) (reg : Registry)
        (pr : String × (List (String × Json) → Except String String)) (e : String),
      reg.find? (fun p => p.1 == s) = some pr → pr.2 kw = .error e →
      runRegistered s (Json.obj kw) reg =
        "Error executing tool \x27" ++ s ++ "\x27: " ++ e) ∧
    (∀ (hist : List Turn) (p : String) (g : Gateway) (reg : Registry)
        (an : String → TextAnalysis) (s0 s : Stream) (tcs : List ToolCallItem)
        (hist2 : List Turn),
      g 0 (hist ++ [userTurn p]) = .ok s0 → g 1 (hist ++ [userTurn p]) = .ok s →
      s.terminal = Terminal.done →
      extractionStep (structCallsOf s) (aggContent s) (hist ++ [userTurn p])
        (an (aggContent s)) = .ok (tcs, hist2) →
      tcs ≠ [] →
      (∀ (u : Nat) (item : ToolCallItem), item ∈ tcs →
        ∃ r, executeToolCall u item reg = .ok r) →
      (askOllama hist p g reg an).gatewayCalls = 3) := by
  have hchar : ∀ (t : Nat) (item : ToolCallItem) (reg : Registry),
      (∃ e, executeToolCall t item reg = .error e) ↔ malformedExtracted item = true := by
    intro t item reg
    cases item with
    | structured f =>
      cases f with
      | none => simp [executeToolCall, malformedExtracted]
      | some ff =>
        cases hn : ff.name with
        | none => simp [executeToolCall, malformedExtracted, hn]
        | some n =>
          cases hb : n == "" with
          | true => simp [executeToolCall, malformedExtracted, hn, hb]
          | false => simp [executeToolCall, malformedExtracted, hn, hb]
    | fromText data =>
      cases data with
      | null => simp [executeToolCall, malformedExtracted]
      | bool b => simp [executeToolCall, malformedExtracted]
      | num n => simp [executeToolCall, malformedExtracted]
      | str s => simp [executeToolCall, malformedExtracted]
      | arr xs => simp [executeToolCall, malformedExtracted]
      | obj fields =>
        cases hany : fields.any (fun p => p.1 == "function") with
        | false => simp [executeToolCall, malformedExtracted, hany]
        | true =>
          cases hv : jlookup fields "function" with
          | none => simp [executeToolCall, malformedExtracted, hany, hv]
          | some v =>
            cases v with
            | null => simp [executeToolCall, malformedExtracted, hany, hv]
            | bool b => simp [executeToolCall, malformedExtracted, hany, hv]
            | num n => simp [executeToolCall, malformedExtracted, hany, hv]
            | str s => simp [executeToolCall, malformedExtracted, hany, hv]
            | arr ys => simp [executeToolCall, malformedExtracted, hany, hv]
            | obj ff =>
              cases hw : jlookup ff "name" with
              | none => simp [executeToolCall, malformedExtracted, hany, hv, hw]
              | some w =>
                cases htr : jsonTruthy w with
                | false => simp [executeToolCall, malformedExtracted, hany, hv, hw, htr]
                | true =>
                  cases w with
                  | null => simp [jsonTruthy] at htr
                  | bool b =>
                    simp [executeToolCall, malformedExtracted, hany, hv, hw, htr]
                  | num n =>
                    simp [executeToolCall, malformedExtracted, hany, hv, hw, htr]
                  | str s =>
                    simp [executeToolCall, malformedExtracted, hany, hv, hw, htr]
                  | arr ys =>
                    simp [executeToolCall, malformedExtracted, hany, hv, hw, htr]
                  | obj zs =>
                    simp [executeToolCall, malformedExtracted, hany, hv, hw, htr]
  have hok : ∀ (t : Nat) (item : ToolCallItem) (reg : Registry),
      malformedExtracted item = false → ∃ r, executeToolCall t item reg = .ok r := by
    intro t item reg hm
    cases hres : executeToolCall t item reg with
    | ok r => exact ⟨r, rfl⟩
    | error e =>
      have hc := (hchar t item reg).mp ⟨e, hres⟩
      simp [hc] at hm
  refine ⟨hchar, hok, ?_, ?_, ?_, ?_, ?_, ?_, ?_⟩
  · intro t f reg
    exact hok t (ToolCallItem.structured f) reg rfl
  · intro t n args reg hne hfind
    have hb : (n == "") = false := by
      cases hq : n == "" with
      | true => exact absurd (beq_iff_eq.mp hq) hne
      | false => rfl
    simp [executeToolCall, hb, runRegistered, hfind]
  · intro t n args reg pr e hne hfind hcap
    have hb : (n == "") = false := by
      cases hq : n == "" with
      | true => exact absurd (beq_iff_eq.mp hq) hne
      | false => rfl
    simp [executeToolCall, hb, runRegistered, hfind, hcap]
  · intro t fields ff s reg hany hv hw hs
    have hb : (s == "") = false := by
      cases hq : s == "" with
      | true => exact absurd (beq_iff_eq.mp hq) hs
      | false => rfl
    simp [executeToolCall, hany, hv, hw, jsonTruthy, hb]
    exact hs
  · intro s fargs reg hfind
    simp [runRegistered, hfind]
  · intro s kw reg pr e hfind hcap
    simp [runRegistered, hfind, hcap]
  · intro hist p g reg an s0 s tcs hist2 h0 h1 ht hx hne hokk
    rw [askOllama_eq_afterStream hist p g reg an s0 s h0 h1]
    simp only [roundAfterStream, ht]
    rw [hx]
    have hh : hist2 = hist ++ [userTurn p] :=
      extractionStep_hist_of_ne _ _ _ _ _ _ hx hne
    obtain ⟨ts, hts, hroles⟩ := runTools_allOk tcs reg hokk 0 hist2
    show (roundAfterExtraction hist2 tcs (aggContent s) g reg).gatewayCalls = 3
    unfold roundAfterExtraction
    have hemp : tcs.isEmpty = false := by
      cases tcs with
      | nil => exact absurd rfl hne
      | cons a l => rfl
    rw [hemp]
    simp only [Bool.false_eq_true, if_false, hts]
    exact secondCall_calls (hist2 ++ ts) tcs g

/-- Witness for C6 amended: a concrete unknown tool name through both
request families — the structured one and the well-formed
text-extracted one — each yielding the textual unknown-tool result. -/
theorem c6_executor_amended_witness :
    executeToolCall 0 (ToolCallItem.structured (some ⟨some "frobnicate", []⟩)) regEx =
      .ok (some ("generated_ollama_tool_id_0", "Unknown tool: frobnicate")) ∧
    executeToolCall 1 (ToolCallItem.fromText (Json.obj [("function", Json.obj
        [("name", Json.str "frobnicate"), ("arguments", Json.obj [])])])) regEx =
      .ok (some ("generated_from_text_1", "Unknown tool: frobnicate")) := by
  constructor
  · exact c6_executor_amended.2.2.2.1 0 "frobnicate" [] regEx (by decide) rfl
  · exact c6_executor_amended.2.2.2.2.2.1 1
      [("function", Json.obj [("name", Json.str "frobnicate"), ("arguments", Json.obj [])])]
      [("name", Json.str "frobnicate"), ("arguments", Json.obj [])]
      "frobnicate" regEx rfl rfl rfl (by decide)

/-- C7 counterexample: when the pattern match raises, glob_tool
returns the error string with the process working directory left at
the tool argument, not restored to its pre-call value. -/
theorem c7_glob_cwd_not_restored_counterexample :
    glob_tool "a" "/tmp" "/home" (fun _ => .ok ()) (fun _ _ => .error "boom") =
      ("Error globbing for pattern \x27a\x27 in \x27/tmp\x27: boom", "/tmp") ∧
    (glob_tool "a" "/tmp" "/home" (fun _ => .ok ()) (fun _ _ => .error "boom")).2 ≠ "/home" := by
  exact ⟨rfl, by decide⟩

/-- C7 amended: glob_tool restores the working directory on the
successful path; when the pattern match raises after the chdir into
the directory argument, the except branch returns the error string
with the working directory still changed; when the initial chdir
itself raises, the directory was never changed. -/
theorem c7_glob_cwd_amended (pattern dirPath cwd0 : String)
    (chdir : String → Except String Unit)
    (globFn : String → String → Except String (List String)) :
    (∀ files, chdir dirPath = .ok () → globFn pattern dirPath = .ok files →
      chdir cwd0 = .ok () →
      (glob_tool pattern dirPath cwd0 chdir globFn).2 = cwd0) ∧
    (∀ e, chdir dirPath = .ok () → globFn pattern dirPath = .error e →
      glob_tool pattern dirPath cwd0 chdir globFn =
        ("Error globbing for pattern \x27" ++ pattern ++ "\x27 in \x27" ++ dirPath ++
          "\x27: " ++ e, dirPath)) ∧
    (∀ e, chdir dirPath = .error e →
      glob_tool pattern dirPath cwd0 chdir globFn =
        ("Error globbing for pattern \x27" ++ pattern ++ "\x27 in \x27" ++ dirPath ++
          "\x27: " ++ e, cwd0)) := by
  refine ⟨?_, ?_, ?_⟩
  · intro files h1 h2 h3
    unfold glob_tool
    rw [h1, h2, h3]
    by_cases hfe : files.isEmpty <;> simp [hfe]
  · intro e h1 h2
    unfold glob_tool
    rw [h1, h2]
  · intro e h1
    unfold glob_tool
    rw [h1]

/-- Witness for C7 amended: the successful path does restore. -/
theorem c7_glob_cwd_amended_witness :
    (glob_tool "x2A.py" "/srv" "/opt" (fun _ => .ok ()) (fun _ _ => .ok ["f.py"])).2 = "/opt" :=
  (c7_glob_cwd_amended "x2A.py" "/srv" "/opt" (fun _ => .ok ()) (fun _ _ => .ok ["f.py"])).1
    ["f.py"] rfl rfl rfl

/-- Gateway for the C8 counterexample: the stream delivers partial
content and is then interrupted. -/
def gC8i : Gateway := fun _ _ => .ok ⟨[⟨"par", []⟩], Terminal.interrupted⟩

/-- C8 counterexample: a stream failing mid-consumption after
producing content "par" ends the round with no assistant turn at all —
the partial content is discarded, not appended as a degraded assistant
turn.  The user turn is retained and neither tools nor a continuation
run. -/
theorem c8_partial_content_dropped_counterexample :
    askOllama [systemTurn] "hi" gC8i regEx anNone =
      { result := .ok "", history := [systemTurn, userTurn "hi"],
        gatewayCalls := 2, toolCalls := [] } ∧
    ∀ tr ∈ (askOllama [systemTurn] "hi" gC8i regEx anNone).history,
      tr.content ≠ "par" := by
  refine ⟨rfl, ?_⟩
  intro tr htr
  have : tr = systemTurn ∨ tr = userTurn "hi" := by
    have hh : (askOllama [systemTurn] "hi" gC8i regEx anNone).history =
        [systemTurn, userTurn "hi"] := rfl
    rw [hh] at htr
    simpa using htr
  rcases this with h | h <;> rw [h] <;> decide

/-- C8 amended: when the stream of the consumed second initial
invocation fails mid-consumption, the round ends after the two initial
gateway invocations with no tool turn and no assistant turn; the user
turn is retained and the partial content is discarded — the empty
string is returned on KeyboardInterrupt, while any other mid-stream
exception propagates. -/
theorem c8_midstream_amended (hist : List Turn) (p : String) (g : Gateway) (reg : Registry)
    (an : String → TextAnalysis) (s0 s : Stream)
    (h0 : g 0 (hist ++ [userTurn p]) = .ok s0)
    (h1 : g 1 (hist ++ [userTurn p]) = .ok s) :
    (s.terminal = Terminal.interrupted →
      askOllama hist p g reg an =
        { result := .ok "", history := hist ++ [userTurn p], gatewayCalls := 2,
          toolCalls := structCallsOf s }) ∧
    (∀ e, s.terminal = Terminal.raised e →
      askOllama hist p g reg an =
        { result := .error e, history := hist ++ [userTurn p], gatewayCalls := 2,
          toolCalls := structCallsOf s }) := by
  constructor
  · intro ht
    rw [askOllama_eq_afterStream hist p g reg an s0 s h0 h1]
    simp [roundAfterStream, ht]
  · intro e ht
    rw [askOllama_eq_afterStream hist p g reg an s0 s h0 h1]
    simp [roundAfterStream, ht]

/-- Gateway for the C8 witness: the stream raises mid-consumption. -/
def gC8r : Gateway := fun _ _ => .ok ⟨[⟨"pa", []⟩], Terminal.raised "ValueError"⟩

/-- Witness for C8 amended at a concrete raising stream. -/
theorem c8_midstream_amended_witness :
    askOllama [systemTurn] "hey" gC8r regEx anNone =
      { result := .error "ValueError", history := [systemTurn, userTurn "hey"],
        gatewayCalls := 2, toolCalls := [] } :=
  (c8_midstream_amended [systemTurn] "hey" gC8r regEx anNone
    ⟨[⟨"pa", []⟩], Terminal.raised "ValueError"⟩
    ⟨[⟨"pa", []⟩], Terminal.raised "ValueError"⟩ rfl rfl).2 "ValueError" rfl

/-- C2: the user turn is appended to the store before the gateway is
consulted — ask_ollama depends on the gateway only at histories
extending the one with the user turn appended — and a failing first
invocation rolls the user turn back, surfaces the handled error
message as the result, executes no tool and makes no further gateway
invocation (exactly one invocation happens). -/
theorem c2_append_before_call_and_rollback (hist : List Turn) (p : String) (g : Gateway)
    (reg : Registry) (an : String → TextAnalysis) :
    (∀ g' : Gateway,
      (∀ (i : Nat) (h3 : List Turn), (hist ++ [userTurn p]) <+: h3 → g i h3 = g' i h3) →
      askOllama hist p g reg an = askOllama hist p g' reg an) ∧
    (∀ e : GWErr, g 0 (hist ++ [userTurn p]) = .error e →
      askOllama hist p g reg an =
        { result := .ok (handleOllamaError e OLLAMA_MODEL), history := hist,
          gatewayCalls := 1, toolCalls := [] }) := by
  constructor
  · intro g' hagree
    have h0 := hagree 0 (hist ++ [userTurn p]) (List.prefix_refl _)
    have h1 := hagree 1 (hist ++ [userTurn p]) (List.prefix_refl _)
    simp only [askOllama]
    rw [h0, h1]
    cases hg0 : g' 0 (hist ++ [userTurn p]) with
    | error e => rfl
    | ok s0 =>
      cases hg1 : g' 1 (hist ++ [userTurn p]) with
      | error e => rfl
      | ok s =>
        exact roundAfterStream_congr (hist ++ [userTurn p]) s g g' reg (an (aggContent s))
          (fun h3 hp => hagree 2 h3 hp)
  · intro e h0
    exact askOllama_err0 hist p g reg an e h0

/-- Gateway for the C2 witness: unreachable backend. -/
def gC2 : Gateway := fun _ _ => .error ⟨true, "refused"⟩

/-- Witness for C2 at a concrete pre-stream failure. -/
theorem c2_append_before_call_and_rollback_witness :
    askOllama [systemTurn] "hello" gC2 regEx anNone =
      { result := .ok "Error: Could not connect to Ollama server. Is it running? (refused)",
        history := [systemTurn], gatewayCalls := 1, toolCalls := [] } :=
  (c2_append_before_call_and_rollback [systemTurn] "hello" gC2 regEx anNone).2
    ⟨true, "refused"⟩ rfl

/-- With structured calls present, the post-stream phase ignores the
text analysis entirely and reports exactly the structured calls. -/
theorem roundAfterStream_of_struct (hist1 : List Turn) (s : Stream) (g : Gateway)
    (reg : Registry) (ta : TextAnalysis) (hne : structCallsOf s ≠ []) :
    (roundAfterStream hist1 s g reg ta).toolCalls = structCallsOf s ∧
    ∀ ta', roundAfterStream hist1 s g reg ta = roundAfterStream hist1 s g reg ta' := by
  cases ht : s.terminal with
  | interrupted =>
    exact ⟨by simp [roundAfterStream, ht], fun ta' => by simp [roundAfterStream, ht]⟩
  | raised e =>
    exact ⟨by simp [roundAfterStream, ht], fun ta' => by simp [roundAfterStream, ht]⟩
  | done =>
    constructor
    · simp only [roundAfterStream, ht]
      rw [extractionStep_of_ne (structCallsOf s) (aggContent s) hist1 ta hne]
      exact roundAfterExtraction_toolCalls hist1 (structCallsOf s) (aggContent s) g reg
    · intro ta'
      simp only [roundAfterStream, ht]
      rw [extractionStep_of_ne (structCallsOf s) (aggContent s) hist1 ta hne,
        extractionStep_of_ne (structCallsOf s) (aggContent s) hist1 ta' hne]

/-- C3: when the stream produced at least one structured tool-call
event, text extraction is skipped entirely — the round outcome does
not depend on the analysis of the aggregated text, even when that text
contains a JSON block — and exactly the structured requests result as
the assembled tool_calls list. -/
theorem c3_structured_calls_take_precedence (hist : List Turn) (p : String) (g : Gateway)
    (reg : Registry) (an an' : String → TextAnalysis) (s0 s : Stream)
    (h0 : g 0 (hist ++ [userTurn p]) = .ok s0)
    (h1 : g 1 (hist ++ [userTurn p]) = .ok s)
    (hne : structCallsOf s ≠ []) :
    askOllama hist p g reg an = askOllama hist p g reg an' ∧
    (askOllama hist p g reg an).toolCalls = structCallsOf s := by
  obtain ⟨htc, hind⟩ := roundAfterStream_of_struct (hist ++ [userTurn p]) s g reg
    (an (aggContent s)) hne
  constructor
  · rw [askOllama_eq_afterStream hist p g reg an s0 s h0 h1,
      askOllama_eq_afterStream hist p g reg an' s0 s h0 h1]
    exact hind (an' (aggContent s))
  · rw [askOllama_eq_afterStream hist p g reg an s0 s h0 h1]
    exact htc

/-- Stream for the C3 witness: one structured call plus content. -/
def sC3 : Stream :=
  ⟨[⟨"on it", [some ⟨some "read_file_tool", [("file_path", Json.str "a.txt")]⟩]⟩],
    Terminal.done⟩

def gC3 : Gateway := fun _ _ => .ok sC3

/-- Analysis pretending the aggregated text also carries a fenced
JSON block that would parse to another call — it must be ignored. -/
def anC3 : String → TextAnalysis := fun _ =>
  ⟨[some (Json.obj [("name", Json.str "write_file_tool")])], none⟩

/-- Witness for C3: with one structured event the outcome ignores the
analysis carrying an extra JSON block, and exactly the one structured
request results. -/
theorem c3_structured_calls_take_precedence_witness :
    askOllama [systemTurn] "do it" gC3 regEx anC3 =
      askOllama [systemTurn] "do it" gC3 regEx anNone ∧
    (askOllama [systemTurn] "do it" gC3 regEx anC3).toolCalls =
      [ToolCallItem.structured (some ⟨some "read_file_tool",
        [("file_path", Json.str "a.txt")]⟩)] :=
  c3_structured_calls_take_precedence [systemTurn] "do it" gC3 regEx anC3 anNone sC3 sC3
    rfl rfl (List.cons_ne_nil _ _)

/-- C10: in a round that executes at least one tool call, the first
response content is never appended: provided every assembled request
executes and the continuation stream succeeds, the store ends as the
original history plus, in order, one user turn, one tool turn per
executed request, and one final assistant turn holding only the second
response content; an assistant turn holding the first response text
can only appear in rounds whose assembled tool_calls list is empty. -/
theorem c10_tool_round_store_shape (hist : List Turn) (p : String) (g : Gateway)
    (reg : Registry) (an : String → TextAnalysis) (s0 s : Stream)
    (tcs : List ToolCallItem) (hist2 : List Turn) (s2 : Stream)
    (h0 : g 0 (hist ++ [userTurn p]) = .ok s0)
    (h1 : g 1 (hist ++ [userTurn p]) = .ok s)
    (ht : s.terminal = Terminal.done)
    (hx : extractionStep (structCallsOf s) (aggContent s) (hist ++ [userTurn p])
      (an (aggContent s)) = .ok (tcs, hist2))
    (hne : tcs ≠ [])
    (hexec : ∀ (u : Nat) (item : ToolCallItem), item ∈ tcs →
      ∃ pr, executeToolCall u item reg = .ok (some pr))
    (h2 : ∀ h3, g 2 h3 = .ok s2) (ht2 : s2.terminal = Terminal.done) :
    ∃ ts, askOllama hist p g reg an =
        { result := .ok (aggContent s2),
          history := ((hist ++ [userTurn p]) ++ ts) ++ [assistantTurn (aggContent s2)],
          gatewayCalls := 3, toolCalls := tcs } ∧
      ts.length = tcs.length ∧ ∀ tr ∈ ts, tr.role = Role.tool := by
  have hh : hist2 = hist ++ [userTurn p] :=
    extractionStep_hist_of_ne _ _ _ _ _ _ hx hne
  obtain ⟨ts, hts, hlen, hroles⟩ := runTools_allSome tcs reg hexec 0 (hist ++ [userTurn p])
  refine ⟨ts, ?_, hlen, hroles⟩
  rw [askOllama_eq_afterStream hist p g reg an s0 s h0 h1]
  simp only [roundAfterStream, ht]
  rw [hx, hh]
  show roundAfterExtraction (hist ++ [userTurn p]) tcs (aggContent s) g reg = _
  unfold roundAfterExtraction
  have hemp : tcs.isEmpty = false := by
    cases tcs with
    | nil => exact absurd rfl hne
    | cons a l => rfl
  rw [hemp]
  simp only [Bool.false_eq_true, if_false, hts]
  show secondCall ((hist ++ [userTurn p]) ++ ts) tcs g = _
  simp only [secondCall, h2, ht2]

/-- First-round stream for the C10 witness: one structured call, no
content. -/
def sC10a : Stream :=
  ⟨[⟨"", [some ⟨some "read_file_tool", [("file_path", Json.str "a.txt")]⟩]⟩], Terminal.done⟩

/-- Continuation stream for the C10 witness. -/
def sC10b : Stream := ⟨[⟨"The file says hi.", []⟩], Terminal.done⟩

def gC10 : Gateway := fun i _ => if i == 2 then .ok sC10b else .ok sC10a

/-- Witness for C10 at a concrete structured tool round. -/
theorem c10_tool_round_store_shape_witness :
    ∃ ts, askOllama [systemTurn] "go read" gC10 regEx anNone =
        { result := .ok "The file says hi.",
          history := ([systemTurn, userTurn "go read"] ++ ts) ++
            [assistantTurn "The file says hi."],
          gatewayCalls := 3,
          toolCalls := [ToolCallItem.structured (some ⟨some "read_file_tool",
            [("file_path", Json.str "a.txt")]⟩)] } ∧
      ts.length = 1 ∧ ∀ tr ∈ ts, tr.role = Role.tool :=
  c10_tool_round_store_shape [systemTurn] "go read" gC10 regEx anNone sC10a sC10a
    [ToolCallItem.structured (some ⟨some "read_file_tool", [("file_path", Json.str "a.txt")]⟩)]
    [systemTurn, userTurn "go read"] sC10b rfl rfl rfl rfl (List.cons_ne_nil _ _)
    (by
      intro u item hm
      rw [List.mem_singleton] at hm
      subst hm
      exact ⟨("generated_ollama_tool_id_" ++ toString u, "file stuff"), rfl⟩)
    (fun _ => rfl) rfl

end Bella
